import Mathlib

/-!
# Verification of the amazon-scraper core (`src/index.ts`)

A shallow embedding of the extraction-orchestration core of the scraper:
the rate-limiting admission gate, the identity (header) generator, the
browser-instance manager, the two extraction backends (puppeteer and
axios) and the retry/fallback orchestration of the `/api/scrape` handler.

Pure computations are embedded as Lean functions; the effectful parts
(browser calls, timers) are embedded as explicit traces of events or as
step functions on explicit state, so that every path of the source can be
inspected.  DOM documents are abstracted as lists of result items carrying
exactly the fields the source's selectors read.
-/

namespace AmazonScraper

/-- `pat` occurs as a contiguous sub-list of `s`. -/
def containsSub (s pat : List Char) : Bool :=
  match s with
  | [] => pat.isEmpty
  | _ :: t => pat.isPrefixOf s || containsSub t pat

/-- `true` iff `s` contains `pat` as a contiguous substring
(JS `String.prototype.includes` / CSS `[attr*=...]` matching). -/
def containsSubstr (s pat : String) : Bool :=
  containsSub s.data pat.data

/-- ASCII whitespace, as removed by `String.prototype.trim`. -/
def isWhite (c : Char) : Bool :=
  c == ' ' || c == '\t' || c == '\n' || c == '\r' || c == '\x0c' || c == '\x0b'

/-- JS `String.prototype.trim`: strip leading and trailing whitespace. -/
def jsTrim (s : String) : String :=
  ⟨((s.data.dropWhile isWhite).reverse.dropWhile isWhite).reverse⟩

/-! ## DOM model

A `[data-asin]` result item, carrying the fields read by the extraction
code: `h2 span` text, `.a-price span` text, the `aria-label` of the
stars element, the `img.s-image` source, and the descendant anchors
(in document order) with their `href` data. -/

/-- An anchor element inside a result item.  `attr` is the raw `href`
attribute (what CSS `a[href*=...]` matches on).  `pathname` is the
pathname of the browser-resolved `href` property (in the rendering
backend the page's base URL makes `href` absolute, so
`new URL(el.href).pathname` is well defined); in the axios backend the
document is parsed with no base URL, so the `href` property reflects the
raw attribute. -/
structure Anchor where
  attr : String
  pathname : String
deriving Repr, DecidableEq

/-- A `[data-asin]` result item of the search page DOM. -/
structure Item where
  asin : String
  titleText : Option String
  priceText : Option String
  ratingLabel : Option String
  imageSrc : Option String
  anchors : List Anchor
deriving Repr, DecidableEq

/-- The output record shape shared by both backends (all fields may be
absent: the selectors use optional chaining). -/
structure Product where
  title : Option String
  price : Option String
  rating : Option String
  imageUrl : Option String
  link : Option String
deriving Repr, DecidableEq

/-- JS truthiness of an optional string (`undefined` and `""` are falsy). -/
def truthy : Option String → Bool
  | none => false
  | some s => s != ""

/-- The filter both backends apply: `p => p.title && p.price`. -/
def validProduct (p : Product) : Bool :=
  truthy p.title && truthy p.price

/-- `a[href*="/dp/"], a[href*="/gp/product/"]` — first matching anchor
(puppeteer backend). -/
def findProductAnchor (it : Item) : Option Anchor :=
  it.anchors.find? fun a =>
    containsSubstr a.attr "/dp/" || containsSubstr a.attr "/gp/product/"

/-- `a[href*="/dp/"]` — first matching anchor (axios backend). -/
def findDpAnchor (it : Item) : Option Anchor :=
  it.anchors.find? fun a => containsSubstr a.attr "/dp/"

/-- The record built for one item inside `page.evaluate` of
`scrapeWithPuppeteer`: texts are trimmed, and `link` is
`https://www.amazon.com` + the anchor's pathname when a product anchor
exists, else `https://www.amazon.com/dp/` + the `data-asin` value. -/
def puppeteerRecord (it : Item) : Product where
  title := it.titleText.map jsTrim
  price := it.priceText.map jsTrim
  rating := it.ratingLabel
  imageUrl := it.imageSrc
  link := some (match findProductAnchor it with
    | some a => "https://www.amazon.com" ++ a.pathname
    | none => "https://www.amazon.com/dp/" ++ it.asin)

/-- The record built for one item in `scrapeWithAxios`: same text fields,
but `link` is the `href` property of the first `a[href*="/dp/"]` anchor
(the raw attribute, the document having no base URL), or absent. -/
def axiosRecord (it : Item) : Product where
  title := it.titleText.map jsTrim
  price := it.priceText.map jsTrim
  rating := it.ratingLabel
  imageUrl := it.imageSrc
  link := (findDpAnchor it).map Anchor.attr

/-- The extraction + filter step of the puppeteer backend
(`querySelectorAll('[data-asin]')`, map, `.filter(p => p.title && p.price)`). -/
def puppeteerExtract (doc : List Item) : List Product :=
  (doc.map puppeteerRecord).filter validProduct

/-- The extraction + filter step of the axios backend. -/
def axiosExtract (doc : List Item) : List Product :=
  (doc.map axiosRecord).filter validProduct

lemma truthy_eq_true {o : Option String} :
    truthy o = true ↔ ∃ s, o = some s ∧ s ≠ "" := by
  cases o with
  | none => simp [truthy]
  | some s => simp [truthy]

lemma validProduct_spec {p : Product} (h : validProduct p = true) :
    (∃ s, p.title = some s ∧ s ≠ "") ∧ ∃ s, p.price = some s ∧ s ≠ "" := by
  rw [validProduct, Bool.and_eq_true] at h
  exact ⟨truthy_eq_true.mp h.1, truthy_eq_true.mp h.2⟩

/-- C3: every record in the output of either backend has a non-empty
title and a non-empty price; records missing either field are filtered
out before the backend returns. -/
theorem c3_output_records_valid (doc : List Item) (p : Product)
    (h : p ∈ puppeteerExtract doc ∨ p ∈ axiosExtract doc) :
    (∃ s, p.title = some s ∧ s ≠ "") ∧ ∃ s, p.price = some s ∧ s ≠ "" := by
  rcases h with h | h
  · exact validProduct_spec (List.mem_filter.mp h).2
  · exact validProduct_spec (List.mem_filter.mp h).2

/-- A fully populated result item used as a concrete test document. -/
def itemA : Item where
  asin := "B00TEST01"
  titleText := some "Laptop X"
  priceText := some "$999.00"
  ratingLabel := some "4.5 out of 5 stars"
  imageSrc := some "https://m.media-amazon.com/images/I/x.jpg"
  anchors := [⟨"/dp/B00TEST01/ref=sr_1_1", "/dp/B00TEST01/ref=sr_1_1"⟩]

/-- Witness for C3 at a concrete document. -/
theorem c3_output_records_valid_witness :
    (puppeteerRecord itemA ∈ puppeteerExtract [itemA] ∨
      puppeteerRecord itemA ∈ axiosExtract [itemA]) ∧
    ((∃ s, (puppeteerRecord itemA).title = some s ∧ s ≠ "") ∧
      ∃ s, (puppeteerRecord itemA).price = some s ∧ s ≠ "") :=
  ⟨Or.inl (by decide), c3_output_records_valid [itemA] _ (Or.inl (by decide))⟩

/-! ## Identity generator (`getAmazonHeaders`)

`const chromeVersion = Math.floor(Math.random() * 10) + 115` — the
random draw is embedded as a natural parameter `r`, so the drawn value
is `r % 10 + 115` (every value in `115..124` is reachable and none
other). -/

/-- The engine version drawn by `getAmazonHeaders` for draw `r`. -/
def chromeVersion (r : Nat) : Nat := r % 10 + 115

/-- The header set produced by `getAmazonHeaders` (field names are the
header names in camel case). -/
structure Headers where
  authority : String
  accept : String
  acceptLanguage : String
  cacheControl : String
  secChUa : String
  secChUaMobile : String
  secChUaPlatform : String
  secFetchDest : String
  secFetchMode : String
  secFetchSite : String
  secFetchUser : String
  upgradeInsecureRequests : String
  userAgent : String
deriving Repr, DecidableEq

/-- `getAmazonHeaders` for the random draw `r`. -/
def getAmazonHeaders (r : Nat) : Headers where
  authority := "www.amazon.com"
  accept := "text/html,application/xhtml+xml,application/xml;q=0.9,image/webp,image/apng,*/*;q=0.8"
  acceptLanguage := "en-US,en;q=0.9"
  cacheControl := "max-age=0"
  secChUa := "\"Google Chrome\";v=\"" ++ toString (chromeVersion r) ++
    "\", \"Chromium\";v=\"" ++ toString (chromeVersion r) ++ "\", \"Not=A?Brand\";v=\"24\""
  secChUaMobile := "?0"
  secChUaPlatform := "\"Windows\""
  secFetchDest := "document"
  secFetchMode := "navigate"
  secFetchSite := "none"
  secFetchUser := "?1"
  upgradeInsecureRequests := "1"
  userAgent := "Mozilla/5.0 (Windows NT 10.0; Win64; x64) AppleWebKit/537.36 (KHTML, like Gecko) Chrome/" ++
    toString (chromeVersion r) ++ ".0.0.0 Safari/537.36"

/-- The suffix of `s` following the first occurrence of `pat`, if any. -/
def afterSub (s pat : List Char) : Option (List Char) :=
  match s with
  | [] => if pat.isEmpty then some [] else none
  | c :: t =>
    if pat.isPrefixOf (c :: t) then some ((c :: t).drop pat.length)
    else afterSub t pat

/-- Value of a list of decimal digit characters. -/
def digitsVal (l : List Char) : Nat :=
  l.foldl (fun n c => n * 10 + (c.toNat - 48)) 0

/-- The maximal digit run right after the first occurrence of `marker` in
`s`, read as a number; `none` when `marker` is absent or not followed by
a digit. -/
def numberAfter (marker s : String) : Option Nat :=
  match afterSub s.data marker.data with
  | none => none
  | some rest =>
    let ds := rest.takeWhile Char.isDigit
    if ds.isEmpty then none else some (digitsVal ds)

/-- The version number embedded in the user-agent string (after `Chrome/`). -/
def uaVersion (h : Headers) : Option Nat := numberAfter "Chrome/" h.userAgent

/-- The first version number asserted in the `sec-ch-ua` header. -/
def chUaVersion (h : Headers) : Option Nat := numberAfter "v=\"" h.secChUa

lemma headers_version_eval (k : Nat) (hk : k < 10) :
    uaVersion (getAmazonHeaders k) = some (k + 115) ∧
    chUaVersion (getAmazonHeaders k) = some (k + 115) := by
  interval_cases k <;> exact ⟨by decide, by decide⟩

/-- C8: the engine version embedded in the user-agent string equals the
version asserted in the `sec-ch-ua` client-hint header, and for every
random draw that version lies in the bounded range `115..124`. -/
theorem c8_identity_version_consistent (r : Nat) :
    ∃ v, uaVersion (getAmazonHeaders r) = some v ∧
      chUaVersion (getAmazonHeaders r) = some v ∧ 115 ≤ v ∧ v ≤ 124 := by
  have h1 : chromeVersion (r % 10) = chromeVersion r := by
    unfold chromeVersion; omega
  have h2 : getAmazonHeaders (r % 10) = getAmazonHeaders r := by
    unfold getAmazonHeaders; rw [h1]
  have hk : r % 10 < 10 := by omega
  obtain ⟨hu, hc⟩ := headers_version_eval (r % 10) hk
  rw [h2] at hu hc
  exact ⟨r % 10 + 115, hu, hc, by omega, by omega⟩

/-! ## The rendering backend (`scrapeWithPuppeteer`)

The invocation is embedded as a function from a page environment (what
the navigated page turns out to contain) to the result together with the
trace of page operations performed.  The browser acquisition
(`getBrowser`) is modelled separately below. -/

/-- Upper-case hexadecimal digit. -/
def hexDigit (n : Nat) : Char :=
  if n < 10 then Char.ofNat (48 + n) else Char.ofNat (55 + n)

/-- Bytes left unescaped by JS `encodeURIComponent`:
`A-Z a-z 0-9 - _ . ! ~ * ( )` and the apostrophe (byte 39). -/
def isUnescapedByte (b : Nat) : Bool :=
  (65 ≤ b && b ≤ 90) || (97 ≤ b && b ≤ 122) || (48 ≤ b && b ≤ 57) ||
    b == 45 || b == 95 || b == 46 || b == 33 || b == 126 || b == 42 ||
    b == 39 || b == 40 || b == 41

/-- JS `encodeURIComponent`: percent-encode every UTF-8 byte outside the
unescaped set. -/
def encodeURIComponent (s : String) : String :=
  ⟨(s.toUTF8.toList.map UInt8.toNat).foldr
    (fun b acc =>
      if isUnescapedByte b then Char.ofNat b :: acc
      else '%' :: hexDigit (b / 16) :: hexDigit (b % 16) :: acc) []⟩

/-- The search-results URL both backends target. -/
def searchUrl (keyword : String) : String :=
  "https://www.amazon.com/s?k=" ++ encodeURIComponent keyword

/-- Resource types aborted by the `page.on('request')` interception
handler (all others are passed through unmodified). -/
def abortedResource (rt : String) : Bool :=
  rt == "image" || rt == "font" || rt == "stylesheet"

/-- A thrown JS error, as distinguished by the source: puppeteer timeout
errors, other navigation errors, and plain `new Error(msg)` throws. -/
inductive JsError
  | timeout (msg : String)
  | navigation (msg : String)
  | generic (msg : String)
deriving Repr, DecidableEq

/-- The message carried by a thrown error. -/
def JsError.message : JsError → String
  | .timeout m => m
  | .navigation m => m
  | .generic m => m

/-- Page operations performed by `scrapeWithPuppeteer`, in order. -/
inductive PEv
  | newPage
  | setUserAgent (ua : String)
  | setViewport (w h : Nat)
  | setRequestInterception
  | goto (url : String)
  | solveRecaptchas
  | waitForSelector (sel : String)
  | evaluate
  | closePage
deriving Repr, DecidableEq

/-- What the navigated page turns out to contain, for one invocation. -/
structure PageEnv where
  gotoError : Option JsError
  captchaPresent : Bool
  captchaPersists : Bool
  selectorTimesOut : Bool
  doc : List Item
deriving Repr

/-- Result and operation trace of one `scrapeWithPuppeteer` invocation. -/
structure PupRun where
  result : Except JsError (List Product)
  trace : List PEv
deriving Repr

/-- The tail of `scrapeWithPuppeteer` from the `waitForSelector` step on. -/
def scrapePuppeteerWait (env : PageEnv) (tr : List PEv) : PupRun :=
  if env.selectorTimesOut then
    { result := .error (.timeout "Waiting for selector `[data-asin]` failed"),
      trace := tr ++ [PEv.waitForSelector "[data-asin]"] }
  else
    { result := .ok (puppeteerExtract env.doc),
      trace := tr ++ [PEv.waitForSelector "[data-asin]", PEv.evaluate] }

/-- One invocation of `scrapeWithPuppeteer` (`r` is the header random
draw).  The source opens a page, configures it, navigates, handles the
CAPTCHA marker, waits for results and extracts; it contains no
`page.close()` call on any path (its `try` block has no
`catch`/`finally` — the function body is left syntactically
unterminated in the source file). -/
def scrapeWithPuppeteer (r : Nat) (keyword : String) (env : PageEnv) : PupRun :=
  let pre : List PEv :=
    [PEv.newPage, PEv.setUserAgent (getAmazonHeaders r).userAgent,
      PEv.setViewport 1920 1080, PEv.setRequestInterception,
      PEv.goto (searchUrl keyword)]
  match env.gotoError with
  | some e => { result := .error e, trace := pre }
  | none =>
    if env.captchaPresent then
      let tr := pre ++ [PEv.solveRecaptchas]
      if env.captchaPersists then
        { result := .error (.generic "CAPTCHA verification required"), trace := tr }
      else scrapePuppeteerWait env tr
    else scrapePuppeteerWait env pre

/-- Number of pages opened in a rendering-backend trace. -/
def newPageCount (tr : List PEv) : Nat :=
  tr.countP fun e => match e with | PEv.newPage => true | _ => false

/-- Number of pages closed in a rendering-backend trace. -/
def closePageCount (tr : List PEv) : Nat :=
  tr.countP fun e => match e with | PEv.closePage => true | _ => false

/-- C5 fails on the code: every invocation of the rendering backend
opens exactly one page and, on every path (success, challenge failure,
timeout, navigation error), closes zero pages — the source contains no
`page.close()` call. -/
theorem c5_page_never_closed (r : Nat) (keyword : String) (env : PageEnv) :
    newPageCount (scrapeWithPuppeteer r keyword env).trace = 1 ∧
    closePageCount (scrapeWithPuppeteer r keyword env).trace = 0 := by
  unfold scrapeWithPuppeteer scrapePuppeteerWait
  rcases env with ⟨ge, cp, cps, sto, doc⟩
  cases ge <;> cases cp <;> cases cps <;> cases sto <;>
    simp [newPageCount, closePageCount, List.countP_cons, List.countP_append]

/-! ## The raw-fetch backend (`scrapeWithAxios`) -/

/-- What the raw HTTP fetch turns out to produce: either a transport
rejection (with the response status, when a response exists, and the
error message), or a body together with the items its parsed DOM holds. -/
structure FetchEnv where
  fetchError : Option (Option Nat × String)
  data : String
  doc : List Item
deriving Repr

/-- One invocation of `scrapeWithAxios`: on transport rejection the
catch rethrows `Amazon is blocking requests` for a 503 response and the
original message otherwise; a body containing `robot-verification`
throws `CAPTCHA detected` (rethrown unchanged by the same catch, a plain
`Error` carrying no response); otherwise the parsed items are extracted
and filtered. -/
def scrapeWithAxios (_keyword : String) (env : FetchEnv) :
    Except JsError (List Product) :=
  match env.fetchError with
  | some (status, msg) =>
    .error (.generic (if status == some 503 then "Amazon is blocking requests" else msg))
  | none =>
    if containsSubstr env.data "robot-verification" then
      .error (.generic "CAPTCHA detected")
    else .ok (axiosExtract env.doc)

/-- An item with a valid title and price but no anchor element. -/
def itemNoAnchor : Item where
  asin := "B0NOANCHOR"
  titleText := some "Widget"
  priceText := some "$5.00"
  ratingLabel := none
  imageSrc := none
  anchors := []

/-- C6 counterexample: on a document whose item carries `data-asin` but
no product anchor, the rendering backend constructs the canonical
`/dp/` link, but the axios backend emits the record with **no** link at
all — it never constructs a link from the identifier, so its output
violates the claim that in both backends the link is always an absolute
URL on the origin. -/
theorem c6_counterexample :
    puppeteerExtract [itemNoAnchor] =
      [{ title := some "Widget", price := some "$5.00", rating := none,
         imageUrl := none, link := some "https://www.amazon.com/dp/B0NOANCHOR" }] ∧
    axiosExtract [itemNoAnchor] =
      [{ title := some "Widget", price := some "$5.00", rating := none,
         imageUrl := none, link := none }] := by
  exact ⟨by decide, by decide⟩

/-- C6 amended: every rendering-backend record carries a link beginning
with the target origin (the resolved anchor pathname, or the canonical
`/dp/` path from the identifier); an axios-backend record's link is
either absent or the raw `href` attribute of one of the document's
anchors containing `/dp/` — not canonicalized and with no identifier
fallback. -/
theorem c6_amended_links (doc : List Item) (p : Product) :
    (p ∈ puppeteerExtract doc →
      ∃ t, p.link = some ("https://www.amazon.com" ++ t)) ∧
    (p ∈ axiosExtract doc →
      p.link = none ∨ ∃ s, p.link = some s ∧
        ∃ it ∈ doc, ∃ a ∈ it.anchors, a.attr = s ∧
          containsSubstr s "/dp/" = true) := by
  constructor
  · intro h
    obtain ⟨it, hit, hp⟩ := List.mem_map.mp (List.mem_filter.mp h).1
    subst hp
    rw [puppeteerRecord]
    cases hfa : findProductAnchor it with
    | some a => exact ⟨a.pathname, rfl⟩
    | none => exact ⟨"/dp/" ++ it.asin, rfl⟩
  · intro h
    obtain ⟨it, hit, hp⟩ := List.mem_map.mp (List.mem_filter.mp h).1
    subst hp
    rw [axiosRecord]
    cases hfa : findDpAnchor it with
    | none => exact Or.inl rfl
    | some a =>
      rw [findDpAnchor] at hfa
      refine Or.inr ⟨a.attr, rfl, it, hit, a, List.mem_of_find?_eq_some hfa, rfl, ?_⟩
      simpa using List.find?_some hfa

/-- Witness for the amended C6 at a concrete document (both implications
discharged). -/
theorem c6_amended_links_witness :
    (∃ t, (puppeteerRecord itemA).link = some ("https://www.amazon.com" ++ t)) ∧
    ((axiosRecord itemA).link = none ∨ ∃ s, (axiosRecord itemA).link = some s ∧
      ∃ it ∈ [itemA], ∃ a ∈ it.anchors, a.attr = s ∧
        containsSubstr s "/dp/" = true) :=
  ⟨(c6_amended_links [itemA] (puppeteerRecord itemA)).1 (by decide),
    (c6_amended_links [itemA] (axiosRecord itemA)).2 (by decide)⟩

/-! ## The orchestrator (the `/api/scrape` handler)

The retry loop is embedded as a fuelled recursion producing the list of
backend invocations and waits it performs (the trace), the final
`products` value and the final `lastError` value.  The outcomes of the
backend calls are abstracted by an oracle: `pup i` is what the `i`-th
`scrapeWithPuppeteer` call produces, `ax` what the single
`scrapeWithAxios` call would produce. -/

/-- Outcomes of the backend invocations available to one request. -/
structure Oracle where
  pup : Nat → Except JsError (List Product)
  ax : Except JsError (List Product)

/-- An oracle realized by the embedded backends themselves. -/
def Oracle.ofEnvs (r : Nat) (keyword : String) (envs : Nat → PageEnv)
    (fenv : FetchEnv) : Oracle where
  pup := fun i => (scrapeWithPuppeteer r keyword (envs i)).result
  ax := scrapeWithAxios keyword fenv

/-- Observable actions of the retry loop, in order. -/
inductive OEv
  | delay (ms : Nat)
  | pup (attempt : Nat)
  | ax
deriving Repr, DecidableEq

/-- Final state of the retry loop. -/
structure RunResult where
  trace : List OEv
  products : List Product
  lastError : Option JsError
deriving Repr

/-- The backoff wait performed at the top of attempt `i`
(`if (attempt > 0) await delay(2000 * attempt)`). -/
def delayChunk (i : Nat) : List OEv :=
  if 0 < i then [OEv.delay (2000 * i)] else []

/-- The retry loop of the handler, from attempt index `i` with `fuel`
iterations left (the caller passes `(retryCount + 1).toNat`, so a
negative `retryCount` runs no iteration, exactly like
`for (attempt = 0; attempt <= retryCount; attempt++)`).  On a successful
call with a non-empty list the loop breaks with those products; on a
successful call with an empty list it just continues; only when a call
**throws** at the last index (`attempt === retryCount`) is the axios
fallback invoked, its own failure replacing `lastError`. -/
def scrapeLoop (o : Oracle) (retryCount : Int) :
    Nat → Nat → List OEv → Option JsError → RunResult
  | 0, _, tr, le => { trace := tr, products := [], lastError := le }
  | fuel + 1, i, tr, le =>
    let tr1 := tr ++ delayChunk i
    match o.pup i with
    | .ok ps =>
      if ps.isEmpty then scrapeLoop o retryCount fuel (i + 1) (tr1 ++ [OEv.pup i]) le
      else { trace := tr1 ++ [OEv.pup i], products := ps, lastError := le }
    | .error e =>
      if (i : Int) = retryCount then
        match o.ax with
        | .ok ps =>
          { trace := tr1 ++ [OEv.pup i, OEv.ax], products := ps, lastError := some e }
        | .error e2 =>
          { trace := tr1 ++ [OEv.pup i, OEv.ax], products := [], lastError := some e2 }
      else scrapeLoop o retryCount fuel (i + 1) (tr1 ++ [OEv.pup i]) (some e)

/-- The whole retry loop for a clamped retry count. -/
def runScrape (o : Oracle) (retryCount : Int) : RunResult :=
  scrapeLoop o retryCount (retryCount + 1).toNat 0 [] none

/-- Number of rendering-backend invocations in a trace. -/
def pupCount (tr : List OEv) : Nat :=
  tr.countP fun e => match e with | OEv.pup _ => true | _ => false

/-- Number of raw-fetch-backend invocations in a trace. -/
def axCount (tr : List OEv) : Nat :=
  tr.countP fun e => match e with | OEv.ax => true | _ => false

/-! ### Retry-count clamping and the handler -/

/-- Value of a maximal leading digit run, if non-empty. -/
def digitsOf (l : List Char) : Option Nat :=
  let ds := l.takeWhile Char.isDigit
  if ds.isEmpty then none else some (digitsVal ds)

/-- JS `parseInt` on a query string (decimal: leading whitespace,
optional sign, maximal digit run; `none` is `NaN`.  The hexadecimal
`0x` prefix form is not modelled — no claim involves it). -/
def jsParseInt (s : String) : Option Int :=
  match s.data.dropWhile isWhite with
  | '-' :: t => (digitsOf t).map fun n => -(n : Int)
  | '+' :: t => (digitsOf t).map fun n => (n : Int)
  | t => (digitsOf t).map fun n => (n : Int)

/-- `const retryCount = Math.min(parseInt(retry) || 0, 3)`.  `retry` is
the raw query value (`none` when absent, in which case the destructuring
default `0` applies and `parseInt(0)` is `0`).  `NaN || 0` and `0 || 0`
are both `0`; every other parsed value passes through — so values above
`3` are clamped down but negative values are not clamped up. -/
def effectiveRetryCount (retry : Option String) : Int :=
  let parsed : Int :=
    match retry with
    | none => 0
    | some s =>
      match jsParseInt s with
      | none => 0
      | some n => if n = 0 then 0 else n
  min parsed 3

/-- The three response shapes of the handler: the 400 validation error,
the 404 `No products found` body (with its `details` string), and the
200 success body (`count` is the length of the unfiltered list, while
`products` is re-filtered). -/
inductive ApiResponse
  | badRequest
  | notFound (details : String)
  | ok (count : Nat) (products : List Product)
deriving Repr, DecidableEq

/-- The `/api/scrape` handler: keyword validation, retry clamping, the
retry loop, and response shaping (`lastError?.message || 'Try different
keywords'`). -/
def handleScrape (keyword : Option String) (retry : Option String)
    (o : Oracle) : ApiResponse × List OEv :=
  match keyword with
  | none => (.badRequest, [])
  | some kw =>
    if kw == "" then (.badRequest, [])
    else
      let rr := runScrape o (effectiveRetryCount retry)
      if rr.products.isEmpty then
        (.notFound (match rr.lastError with
          | some e => if e.message == "" then "Try different keywords" else e.message
          | none => "Try different keywords"), rr.trace)
      else (.ok rr.products.length (rr.products.filter validProduct), rr.trace)

/-! ### Counting lemmas for traces -/

lemma pupCount_append (l1 l2 : List OEv) :
    pupCount (l1 ++ l2) = pupCount l1 + pupCount l2 := by
  simp [pupCount, List.countP_append]

lemma axCount_append (l1 l2 : List OEv) :
    axCount (l1 ++ l2) = axCount l1 + axCount l2 := by
  simp [axCount, List.countP_append]

lemma pupCount_delayChunk (i : Nat) : pupCount (delayChunk i) = 0 := by
  unfold delayChunk; split <;> rfl

lemma axCount_delayChunk (i : Nat) : axCount (delayChunk i) = 0 := by
  unfold delayChunk; split <;> rfl

/-! ### The trace appended by the retry loop, in isolation -/

/-- The events the retry loop appends from attempt index `i` with `fuel`
iterations left (same branch structure as `scrapeLoop`). -/
def loopTrace (o : Oracle) (rc : Int) : Nat → Nat → List OEv
  | 0, _ => []
  | fuel + 1, i =>
    delayChunk i ++ OEv.pup i ::
      (match o.pup i with
       | .ok ps => if ps.isEmpty then loopTrace o rc fuel (i + 1) else []
       | .error _ =>
         if (i : Int) = rc then [OEv.ax] else loopTrace o rc fuel (i + 1))

lemma scrapeLoop_trace (o : Oracle) (rc : Int) :
    ∀ fuel i tr le,
      (scrapeLoop o rc fuel i tr le).trace = tr ++ loopTrace o rc fuel i := by
  intro fuel
  induction fuel with
  | zero => intro i tr le; simp [scrapeLoop, loopTrace]
  | succ fuel ih =>
    intro i tr le
    simp only [scrapeLoop, loopTrace]
    cases hp : o.pup i with
    | ok ps =>
      by_cases hps : ps.isEmpty <;>
        simp [hps, ih, List.append_assoc]
    | error e =>
      by_cases hi : (i : Int) = rc
      · cases o.ax <;> simp [hi, List.append_assoc]
      · simp [hi, ih, List.append_assoc]

lemma pupCount_chunk (i : Nat) (s : List OEv) :
    pupCount (delayChunk i ++ OEv.pup i :: s) = pupCount s + 1 := by
  rw [pupCount_append, pupCount_delayChunk]
  simp [pupCount, List.countP_cons]

lemma axCount_chunk (i : Nat) (s : List OEv) :
    axCount (delayChunk i ++ OEv.pup i :: s) = axCount s := by
  rw [axCount_append, axCount_delayChunk]
  simp [axCount, List.countP_cons]

lemma loopTrace_pupCount (o : Oracle) (rc : Int) :
    ∀ fuel i, pupCount (loopTrace o rc fuel i) ≤ fuel := by
  intro fuel
  induction fuel with
  | zero => intro i; simp [loopTrace, pupCount]
  | succ fuel ih =>
    intro i
    simp only [loopTrace]
    split
    · split
      · rw [pupCount_chunk]
        exact Nat.succ_le_succ (ih (i + 1))
      · rw [pupCount_chunk]
        simp [pupCount]
    · split
      · rw [pupCount_chunk]
        simp [pupCount, List.countP_cons]
      · rw [pupCount_chunk]
        exact Nat.succ_le_succ (ih (i + 1))

/-- The events following rendering attempt `i` in the loop trace:
nothing on a non-empty success (break), the single fallback call on a
throw at the last index, the rest of the loop otherwise. -/
def loopTail (o : Oracle) (rc : Int) (fuel i : Nat) : List OEv :=
  match o.pup i with
  | .ok ps => if ps.isEmpty then loopTrace o rc fuel (i + 1) else []
  | .error _ => if (i : Int) = rc then [OEv.ax] else loopTrace o rc fuel (i + 1)

lemma loopTrace_succ (o : Oracle) (rc : Int) (fuel i : Nat) :
    loopTrace o rc (fuel + 1) i =
      delayChunk i ++ OEv.pup i :: loopTail o rc fuel i := rfl

lemma loopTail_of_error_last (o : Oracle) (rc : Int) (fuel i : Nat)
    (e : JsError) (he : o.pup i = .error e) (hi : (i : Int) = rc) :
    loopTail o rc fuel i = [OEv.ax] := by
  unfold loopTail
  rw [he]
  simp [hi]

lemma loopTail_of_error_mid (o : Oracle) (rc : Int) (fuel i : Nat)
    (e : JsError) (he : o.pup i = .error e) (hi : ¬(i : Int) = rc) :
    loopTail o rc fuel i = loopTrace o rc fuel (i + 1) := by
  unfold loopTail
  rw [he]
  simp [hi]

lemma loopTail_of_ok_empty (o : Oracle) (rc : Int) (fuel i : Nat)
    (he : o.pup i = .ok []) :
    loopTail o rc fuel i = loopTrace o rc fuel (i + 1) := by
  unfold loopTail
  rw [he]
  simp

lemma loopTail_cases (o : Oracle) (rc : Int) (fuel i : Nat) :
    loopTail o rc fuel i = [] ∨ loopTail o rc fuel i = [OEv.ax] ∨
      loopTail o rc fuel i = loopTrace o rc fuel (i + 1) := by
  unfold loopTail
  cases o.pup i with
  | ok ps => by_cases hps : ps.isEmpty <;> simp [hps]
  | error e => by_cases hi : (i : Int) = rc <;> simp [hi]

/-- If a rendering attempt `j` occurs in the tail following attempt `i`,
then `j > 0` and it is immediately preceded by its backoff delay
(assuming the induction hypothesis for the remaining loop). -/
lemma loopTail_decomp (o : Oracle) (rc : Int) (fuel : Nat)
    (ih : ∀ i pre j post, loopTrace o rc fuel i = pre ++ OEv.pup j :: post →
      (j = 0 → i = 0 ∧ pre = []) ∧
      (0 < j → ∃ pre2, pre = pre2 ++ [OEv.delay (2000 * j)]))
    (i : Nat) (pre : List OEv) (j : Nat) (post : List OEv)
    (h : loopTail o rc fuel i = pre ++ OEv.pup j :: post) :
    0 < j ∧ ∃ pre2, pre = pre2 ++ [OEv.delay (2000 * j)] := by
  rcases loopTail_cases o rc fuel i with hs | hs | hs <;> rw [hs] at h
  · rcases pre with _ | ⟨e1, pre⟩ <;> simp at h
  · rcases pre with _ | ⟨e1, pre⟩ <;> simp at h
  · have hd := ih (i + 1) pre j post h
    rcases Nat.eq_zero_or_pos j with hj | hj
    · exact absurd (hd.1 hj).1 (by omega)
    · exact ⟨hj, hd.2 hj⟩

/-- Rendering attempt `j` in a loop trace started at attempt `i` is
either the very first event (when `j = 0`, possible only for `i = 0`) or
immediately preceded by a delay of exactly `2000 * j` ms. -/
lemma loopTrace_delay_discipline (o : Oracle) (rc : Int) :
    ∀ fuel i pre j post, loopTrace o rc fuel i = pre ++ OEv.pup j :: post →
      (j = 0 → i = 0 ∧ pre = []) ∧
      (0 < j → ∃ pre2, pre = pre2 ++ [OEv.delay (2000 * j)]) := by
  intro fuel
  induction fuel with
  | zero =>
    intro i pre j post h
    rw [loopTrace] at h
    rcases pre with _ | ⟨e1, pre⟩ <;> simp at h
  | succ fuel ih =>
    intro i pre j post h
    rw [loopTrace_succ] at h
    by_cases hi : 0 < i
    · rw [delayChunk, if_pos hi, List.cons_append, List.nil_append] at h
      rcases pre with _ | ⟨e1, pre⟩
      · rw [List.nil_append] at h
        simp only [List.cons.injEq] at h
        exact absurd h.1 (by simp)
      · rw [List.cons_append] at h
        simp only [List.cons.injEq] at h
        obtain ⟨he1, h⟩ := h
        rcases pre with _ | ⟨e2, pre⟩
        · rw [List.nil_append] at h
          simp only [List.cons.injEq] at h
          obtain ⟨hij, -⟩ := h
          injection hij with hij
          constructor
          · intro hj0; exact absurd hj0 (by omega)
          · intro _
            refine ⟨[], ?_⟩
            rw [← he1, hij, List.nil_append]
        · rw [List.cons_append] at h
          simp only [List.cons.injEq] at h
          obtain ⟨he2, h⟩ := h
          obtain ⟨hj, pre2, hpre2⟩ := loopTail_decomp o rc fuel ih i pre j post h
          constructor
          · intro hj0; exact absurd hj0 (by omega)
          · intro _
            exact ⟨e1 :: e2 :: pre2, by rw [hpre2]; simp⟩
    · have hi0 : i = 0 := by omega
      subst hi0
      rw [delayChunk, if_neg (by omega), List.nil_append] at h
      rcases pre with _ | ⟨e1, pre⟩
      · rw [List.nil_append] at h
        simp only [List.cons.injEq] at h
        obtain ⟨hij, -⟩ := h
        injection hij with hij
        constructor
        · intro _; exact ⟨rfl, rfl⟩
        · intro hj; exact absurd hij (by omega)
      · rw [List.cons_append] at h
        simp only [List.cons.injEq] at h
        obtain ⟨he1, h⟩ := h
        obtain ⟨hj, pre2, hpre2⟩ := loopTail_decomp o rc fuel ih 0 pre j post h
        constructor
        · intro hj0; exact absurd hj0 (by omega)
        · intro _
          exact ⟨e1 :: pre2, by rw [hpre2]; simp⟩

/-- The backoff discipline of a trace: rendering attempt `0` is the very
first action performed (nothing is waited before it), and every
rendering attempt `i > 0` is immediately preceded by a wait of exactly
`2000 * i` ms. -/
def DelayDiscipline (tr : List OEv) : Prop :=
  ∀ pre i post, tr = pre ++ OEv.pup i :: post →
    (i = 0 → pre = []) ∧ (0 < i → ∃ pre2, pre = pre2 ++ [OEv.delay (2000 * i)])

/-- C9: with retry budget `r` in `0..3` the rendering backend is invoked
at most `r + 1` times before the fallback, nothing is waited before
attempt `0`, and attempt `i > 0` is immediately preceded by a wait of
exactly `2000 * i` ms (linear backoff, not exponential). -/
theorem c9_linear_backoff (o : Oracle) (r : Nat) (h : r ≤ 3) :
    pupCount (runScrape o r).trace ≤ r + 1 ∧
    DelayDiscipline (runScrape o r).trace := by
  have htr : (runScrape o r).trace = loopTrace o r (((r : Int) + 1).toNat) 0 := by
    rw [runScrape, scrapeLoop_trace]; rfl
  have hf : ((r : Int) + 1).toNat = r + 1 := by omega
  constructor
  · rw [htr, hf]
    exact loopTrace_pupCount o r (r + 1) 0
  · rw [htr]
    intro pre j post hdec
    have hd := loopTrace_delay_discipline o r (((r : Int) + 1).toNat) 0 pre j post hdec
    exact ⟨fun hj => (hd.1 hj).2, hd.2⟩

/-- Oracle whose rendering calls all succeed with zero records and whose
raw fetch would succeed with one record. -/
def oracleEmptyPup : Oracle where
  pup := fun _ => .ok []
  ax := .ok [axiosRecord itemA]

/-- Oracle whose rendering calls all throw a navigation error and whose
raw fetch succeeds with zero records. -/
def oracleFailPup : Oracle where
  pup := fun _ => .error (.navigation "net::ERR_FAILED")
  ax := .ok []

/-- Witness for C9 at a concrete oracle and budget 3. -/
theorem c9_linear_backoff_witness :
    pupCount (runScrape oracleFailPup 3).trace ≤ 3 + 1 ∧
    DelayDiscipline (runScrape oracleFailPup 3).trace :=
  c9_linear_backoff oracleFailPup 3 (by decide)

/-! ### C1: when the raw-fetch fallback is invoked -/

lemma loopTrace_all_error (o : Oracle) (rc : Int) :
    ∀ (fuel i : Nat), 1 ≤ fuel → (i : Int) + fuel = rc + 1 →
      (∀ (j : Nat), i ≤ j → (j : Int) ≤ rc → ∃ e, o.pup j = .error e) →
      pupCount (loopTrace o rc fuel i) = fuel ∧
      axCount (loopTrace o rc fuel i) = 1 := by
  intro fuel
  induction fuel with
  | zero => intro i h1 _ _; exact absurd h1 (by omega)
  | succ fuel ih =>
    intro i _ hsum hall
    obtain ⟨e, he⟩ := hall i le_rfl (by omega)
    rw [loopTrace_succ]
    by_cases hi : (i : Int) = rc
    · rw [loopTail_of_error_last o rc fuel i e he hi, pupCount_chunk, axCount_chunk]
      have hfz : fuel = 0 := by omega
      subst hfz
      exact ⟨rfl, rfl⟩
    · rw [loopTail_of_error_mid o rc fuel i e he hi, pupCount_chunk, axCount_chunk]
      obtain ⟨hp, ha⟩ := ih (i + 1) (by omega) (by push_cast at hsum ⊢; omega)
        (fun j hj hj2 => hall j (by omega) hj2)
      exact ⟨by rw [hp], by rw [ha]⟩

lemma loopTrace_all_empty (o : Oracle) (rc : Int) :
    ∀ (fuel i : Nat), (i : Int) + fuel = rc + 1 →
      (∀ (j : Nat), i ≤ j → (j : Int) ≤ rc → o.pup j = .ok []) →
      pupCount (loopTrace o rc fuel i) = fuel ∧
      axCount (loopTrace o rc fuel i) = 0 := by
  intro fuel
  induction fuel with
  | zero => intro i _ _; exact ⟨rfl, rfl⟩
  | succ fuel ih =>
    intro i hsum hall
    have he : o.pup i = .ok [] := hall i le_rfl (by omega)
    rw [loopTrace_succ, loopTail_of_ok_empty o rc fuel i he,
      pupCount_chunk, axCount_chunk]
    obtain ⟨hp, ha⟩ := ih (i + 1) (by push_cast at hsum ⊢; omega)
      (fun j hj hj2 => hall j (by omega) hj2)
    exact ⟨by rw [hp], by rw [ha]⟩

lemma scrapeLoop_products_all_empty (o : Oracle) (rc : Int) :
    ∀ (fuel i : Nat) tr le, (i : Int) + fuel = rc + 1 →
      (∀ (j : Nat), i ≤ j → (j : Int) ≤ rc → o.pup j = .ok []) →
      (scrapeLoop o rc fuel i tr le).products = [] := by
  intro fuel
  induction fuel with
  | zero => intro i tr le _ _; rfl
  | succ fuel ih =>
    intro i tr le hsum hall
    have he : o.pup i = .ok [] := hall i le_rfl (by omega)
    simp only [scrapeLoop, he, List.isEmpty_nil, if_true]
    exact ih (i + 1) _ _ (by push_cast at hsum ⊢; omega)
      (fun j hj hj2 => hall j (by omega) hj2)

/-- C1 counterexample: with retry budget 0, when the single rendering
attempt completes with zero valid records (returning normally, no
exception), the raw-fetch backend is invoked zero times — not exactly
once — although it would have produced a record; the request ends with
no products. -/
theorem c1_counterexample :
    pupCount (runScrape oracleEmptyPup 0).trace = 1 ∧
    axCount (runScrape oracleEmptyPup 0).trace = 0 ∧
    (runScrape oracleEmptyPup 0).products = [] :=
  ⟨rfl, rfl, rfl⟩

/-- C1 amended: the raw-fetch backend is invoked exactly once only when
the rendering backend **throws** at the final attempt index — in
particular with budget 0, one rendering invocation and, on its thrown
failure, exactly one raw-fetch invocation; but when every rendering
attempt completes normally with zero records, the raw-fetch backend is
not invoked at all and the request ends with no products. -/
theorem c1_fallback_on_throw (o : Oracle) (r : Nat) (h : r ≤ 3) :
    ((∀ i, i ≤ r → ∃ e, o.pup i = .error e) →
      pupCount (runScrape o r).trace = r + 1 ∧
      axCount (runScrape o r).trace = 1) ∧
    ((∀ i, i ≤ r → o.pup i = .ok []) →
      pupCount (runScrape o r).trace = r + 1 ∧
      axCount (runScrape o r).trace = 0 ∧
      (runScrape o r).products = []) := by
  have htr : (runScrape o r).trace = loopTrace o r (((r : Int) + 1).toNat) 0 := by
    rw [runScrape, scrapeLoop_trace]; rfl
  have hf : ((r : Int) + 1).toNat = r + 1 := by omega
  constructor
  · intro hall
    rw [htr, hf]
    exact loopTrace_all_error o r (r + 1) 0 (by omega) (by push_cast; omega)
      (fun j _ hj2 => hall j (by exact_mod_cast hj2))
  · intro hall
    have hps := scrapeLoop_products_all_empty o r (((r : Int) + 1).toNat) 0 [] none
      (by rw [hf]; push_cast; omega) (fun j _ hj2 => hall j (by exact_mod_cast hj2))
    have hcounts := loopTrace_all_empty o r (r + 1) 0 (by push_cast; omega)
      (fun j _ hj2 => hall j (by exact_mod_cast hj2))
    exact ⟨by rw [htr, hf]; exact hcounts.1, by rw [htr, hf]; exact hcounts.2, hps⟩

/-- Witness for the amended C1 at concrete oracles and budget 0. -/
theorem c1_fallback_on_throw_witness :
    (pupCount (runScrape oracleFailPup 0).trace = 1 ∧
      axCount (runScrape oracleFailPup 0).trace = 1) ∧
    (pupCount (runScrape oracleEmptyPup 0).trace = 1 ∧
      axCount (runScrape oracleEmptyPup 0).trace = 0 ∧
      (runScrape oracleEmptyPup 0).products = []) :=
  ⟨(c1_fallback_on_throw oracleFailPup 0 (by omega)).1
      (fun i _ => ⟨JsError.navigation "net::ERR_FAILED", rfl⟩),
    (c1_fallback_on_throw oracleEmptyPup 0 (by omega)).2 (fun i _ => rfl)⟩

/-! ### C10: retry-count clamping -/

lemma runScrape_neg (o : Oracle) (rc : Int) (h : rc < 0) :
    runScrape o rc = { trace := [], products := [], lastError := none } := by
  rw [runScrape]
  have hz : (rc + 1).toNat = 0 := by omega
  rw [hz]
  rfl

/-- C10: the effective retry budget is `min(parseInt(retry) || 0, 3)`: a
numeric query value above 3 is clamped to 3 and a non-numeric value is
treated as 0, but a negative numeric value is not clamped up to 0 — for
such a request the loop body never runs, so neither the rendering
backend nor the raw-fetch backend is invoked (the trace is empty) and
the handler answers the `No products found` (404) failure with the
fallback detail string. -/
theorem c10_retry_clamp_and_negative :
    (∀ s n, jsParseInt s = some n → 3 < n → effectiveRetryCount (some s) = 3) ∧
    (∀ s, jsParseInt s = none → effectiveRetryCount (some s) = 0) ∧
    (∀ s n o, jsParseInt s = some n → n < 0 →
      effectiveRetryCount (some s) = n ∧
      handleScrape (some "laptop") (some s) o =
        (.notFound "Try different keywords", [])) := by
  refine ⟨?_, ?_, ?_⟩
  · intro s n hparse hn
    have hnz : ¬n = 0 := by omega
    simp only [effectiveRetryCount, hparse, if_neg hnz]
    omega
  · intro s hparse
    simp only [effectiveRetryCount, hparse]
    decide
  · intro s n o hparse hn
    have hnz : ¬n = 0 := by omega
    have he : effectiveRetryCount (some s) = n := by
      simp only [effectiveRetryCount, hparse, if_neg hnz]
      omega
    refine ⟨he, ?_⟩
    simp only [handleScrape, he, runScrape_neg o n hn]
    rfl

/-- Witness for C10 at the concrete query values `7`, `abc` and `-2`. -/
theorem c10_retry_clamp_and_negative_witness :
    effectiveRetryCount (some "7") = 3 ∧
    effectiveRetryCount (some "abc") = 0 ∧
    (effectiveRetryCount (some "-2") = -2 ∧
      handleScrape (some "laptop") (some "-2") oracleEmptyPup =
        (.notFound "Try different keywords", [])) :=
  ⟨c10_retry_clamp_and_negative.1 "7" 7 (by decide) (by decide),
    c10_retry_clamp_and_negative.2.1 "abc" (by decide),
    c10_retry_clamp_and_negative.2.2 "-2" (-2) oracleEmptyPup (by decide) (by decide)⟩

/-! ## Admission gate (the rate limiting middleware)

`requestCounts` is a `Map` from client identifier to a count.  The
middleware reads the count (default 0), answers 429 without side effect
when it exceeds 10, and otherwise stores `count + 1` and schedules
`requestCounts.delete(ip)` 60 000 ms later.  Timers are modelled
explicitly: the gate state carries the pending deletions with their
fire times, and advancing time fires every deletion that is due. -/

/-- `Map.get` on the association list backing the gate. -/
def lookupCount (m : List (String × Nat)) (ip : String) : Option Nat :=
  (m.find? fun e => e.1 == ip).map Prod.snd

/-- `Map.set`: replace the entry for `ip`, or append a fresh one. -/
def setCount (m : List (String × Nat)) (ip : String) (n : Nat) :
    List (String × Nat) :=
  match m with
  | [] => [(ip, n)]
  | e :: t => if e.1 == ip then (ip, n) :: t else e :: setCount t ip n

/-- `Map.delete`: remove the entry for `ip`, if any. -/
def deleteCount (m : List (String × Nat)) (ip : String) :
    List (String × Nat) :=
  match m with
  | [] => []
  | e :: t => if e.1 == ip then t else e :: deleteCount t ip

/-- Gate state: the count map and the scheduled deletions
`(fire time, ip)` in scheduling order. -/
structure GateState where
  counts : List (String × Nat)
  timers : List (Nat × String)
deriving Repr, DecidableEq

/-- The empty gate. -/
def gate0 : GateState := { counts := [], timers := [] }

/-- Fire every scheduled deletion due at or before time `t` (the
`setTimeout(() => requestCounts.delete(ip), 60000)` callbacks). -/
def fireDue (t : Nat) (st : GateState) : GateState where
  counts := (st.timers.filter fun e => decide (e.1 ≤ t)).foldl
    (fun m e => deleteCount m e.2) st.counts
  timers := st.timers.filter fun e => decide (t < e.1)

/-- The middleware handling a request from `ip` at time `t` (ms): after
due deletions fire, deny when the stored count exceeds 10 (no side
effect); otherwise store `count + 1` and schedule a deletion at
`t + 60000`. -/
def gateAdmit (t : Nat) (ip : String) (st : GateState) : Bool × GateState :=
  let st1 := fireDue t st
  let currentCount := (lookupCount st1.counts ip).getD 0
  if 10 < currentCount then (false, st1)
  else (true, { counts := setCount st1.counts ip (currentCount + 1),
                timers := st1.timers ++ [(t + 60000, ip)] })

/-- Process a time-ordered list of requests `(time, ip)`, returning the
final state and each request's admission outcome. -/
def runRequests (st : GateState) : List (Nat × String) → GateState × List Bool
  | [] => (st, [])
  | (t, ip) :: rest =>
    let r := gateAdmit t ip st
    let rest' := runRequests r.2 rest
    (rest'.1, r.1 :: rest'.2)

/-- C2 counterexample: from an empty gate, 11 requests from the same
client within one window are **all** admitted — the 11th is not denied
(the code denies only once the stored count exceeds 10, i.e. from the
12th request on). -/
theorem c2_counterexample :
    (runRequests gate0 (List.replicate 11 (0, "a"))).2 =
      List.replicate 11 true := by
  decide

lemma lookupCount_setCount (m : List (String × Nat)) (ip : String) (n : Nat) :
    lookupCount (setCount m ip n) ip = some n := by
  induction m with
  | nil => simp [setCount, lookupCount]
  | cons e t ih =>
    by_cases he : e.1 == ip
    · simp [setCount, he, lookupCount]
    · simp only [setCount, he, Bool.false_eq_true, if_false]
      simpa [lookupCount, List.find?, he] using ih

/-- C2 amended: a request is denied exactly when the client's stored
count after due expirations exceeds 10, and denial has no side effect;
since every admitted request increments the count by one starting from
zero, the 11th request of a window is still admitted and it is the 12th
that is denied (shown at a concrete client). -/
theorem c2_deny_above_ten (t : Nat) (ip : String) (st : GateState) :
    (10 < (lookupCount (fireDue t st).counts ip).getD 0 →
      gateAdmit t ip st = (false, fireDue t st)) ∧
    ((lookupCount (fireDue t st).counts ip).getD 0 ≤ 10 →
      (gateAdmit t ip st).1 = true ∧
      lookupCount (gateAdmit t ip st).2.counts ip =
        some ((lookupCount (fireDue t st).counts ip).getD 0 + 1)) ∧
    ((gateAdmit 0 "c" (runRequests gate0 (List.replicate 11 (0, "c"))).1).1 = false ∧
      (gateAdmit 0 "c" (runRequests gate0 (List.replicate 11 (0, "c"))).1).2 =
        (runRequests gate0 (List.replicate 11 (0, "c"))).1) := by
  refine ⟨?_, ?_, by decide, by decide⟩
  · intro h
    unfold gateAdmit
    simp only [if_pos h]
  · intro h
    have hn : ¬10 < (lookupCount (fireDue t st).counts ip).getD 0 := by omega
    unfold gateAdmit
    simp only [if_neg hn]
    exact ⟨trivial, lookupCount_setCount _ _ _⟩

/-- Witness for the amended C2 at a concrete gate state. -/
theorem c2_deny_above_ten_witness :
    (gateAdmit 0 "a" { counts := [("a", 11)], timers := [] } =
      (false, fireDue 0 { counts := [("a", 11)], timers := [] })) ∧
    ((gateAdmit 0 "b" gate0).1 = true ∧
      lookupCount (gateAdmit 0 "b" gate0).2.counts "b" = some 1) :=
  ⟨(c2_deny_above_ten 0 "a" { counts := [("a", 11)], timers := [] }).1 (by decide),
    (c2_deny_above_ten 0 "b" gate0).2.1 (by decide)⟩

/-- C7 counterexample: a stale timer from an earlier window truncates a
fresh window.  After admitted requests at 0 ms, 50 000 ms and 65 000 ms
(the entry was deleted at 60 000 ms, so the 65 000 ms request started a
fresh window that should last until 125 000 ms), the timer scheduled by
the 50 000 ms request fires at 110 000 ms and removes the entry — at
112 000 ms the entry is already gone although the fresh window has not
elapsed. -/
theorem c7_counterexample :
    lookupCount (fireDue 112000
      (runRequests gate0 [(0, "a"), (50000, "a"), (65000, "a")]).1).counts "a"
      = none ∧
    112000 < 65000 + 60000 := by
  exact ⟨by decide, by decide⟩

/-- C7 amended: each **admitted** request schedules deletion of the
client's whole entry 60 s later, so for a client with no pending stale
timers the entry is removed exactly when the 60 s window that began at
its first request elapses, and a later request is admitted afresh with
count 1 — but a stale timer from an earlier window may delete a fresh
window's entry early. -/
theorem c7_single_window_expiry (ip : String) (t u : Nat) :
    (gateAdmit t ip gate0).1 = true ∧
    (u < t + 60000 →
      lookupCount (fireDue u (gateAdmit t ip gate0).2).counts ip = some 1) ∧
    (t + 60000 ≤ u →
      lookupCount (fireDue u (gateAdmit t ip gate0).2).counts ip = none ∧
      (gateAdmit u ip (fireDue u (gateAdmit t ip gate0).2)).1 = true ∧
      lookupCount (gateAdmit u ip (fireDue u (gateAdmit t ip gate0).2)).2.counts ip =
        some 1) := by
  have hst : (gateAdmit t ip gate0).2 =
      { counts := [(ip, 1)], timers := [(t + 60000, ip)] } := by
    unfold gateAdmit fireDue gate0
    simp [lookupCount, setCount]
  refine ⟨rfl, ?_, ?_⟩
  · intro hu
    rw [hst]
    unfold fireDue
    simp [lookupCount, Nat.not_le.mpr hu]
  · intro hu
    have hfire : fireDue u (gateAdmit t ip gate0).2 =
        { counts := [], timers := [] } := by
      rw [hst]
      unfold fireDue
      simp [hu, Nat.not_lt.mpr hu, deleteCount]
    rw [hfire]
    refine ⟨rfl, rfl, ?_⟩
    unfold gateAdmit fireDue
    simp [lookupCount, setCount]

/-- Witness for the amended C7 at concrete times. -/
theorem c7_single_window_expiry_witness :
    lookupCount (fireDue 5000 (gateAdmit 0 "a" gate0).2).counts "a" = some 1 ∧
    (lookupCount (fireDue 70000 (gateAdmit 0 "a" gate0).2).counts "a" = none ∧
      (gateAdmit 70000 "a" (fireDue 70000 (gateAdmit 0 "a" gate0).2)).1 = true ∧
      lookupCount
        (gateAdmit 70000 "a" (fireDue 70000 (gateAdmit 0 "a" gate0).2)).2.counts "a" =
        some 1) :=
  ⟨(c7_single_window_expiry "a" 0 5000).2.1 (by decide),
    (c7_single_window_expiry "a" 0 70000).2.2 (by decide)⟩

/-! ## Browser instance manager (`getBrowser`)

`getBrowser` reads the module-level `browserInstance` and, when it is
unset, awaits `clearPuppeteerData()` and `puppeteer.launch(...)` before
assigning it.  The read and the assignment are separated by suspension
points, so concurrent calls interleave; each call is modelled as a task
with an explicit program counter, and an execution is a schedule of
single task steps over the shared state.  Launched browsers are
identified by their launch sequence number. -/

/-- Program counter of one `getBrowser` call: before the
`browserInstance` check; suspended between the check and the completed
launch; or returned with a browser reference. -/
inductive TaskPC
  | start
  | launching
  | done (ref : Nat)
deriving Repr, DecidableEq

/-- Shared module state: the `browserInstance` singleton and the number
of launches performed so far. -/
structure BrowserState where
  browserInstance : Option Nat
  launches : Nat
deriving Repr, DecidableEq

/-- One step of a `getBrowser` call: at `start`, the
`if (browserInstance) return browserInstance` check (returning the
cached reference, or suspending into the cleanup + launch); at
`launching`, the launch resolves, is assigned to `browserInstance` and
returned.  A finished call does not change the state. -/
def stepTask (st : BrowserState) (pc : TaskPC) : BrowserState × TaskPC :=
  match pc with
  | .start =>
    match st.browserInstance with
    | some b => (st, .done b)
    | none => (st, .launching)
  | .launching =>
    ({ browserInstance := some st.launches, launches := st.launches + 1 },
      .done st.launches)
  | .done r => (st, .done r)

/-- Execute a schedule: each entry names the task that runs one step
(out-of-range entries are no-ops). -/
def runSched (sched : List Nat) (st : BrowserState) (pcs : List TaskPC) :
    BrowserState × List TaskPC :=
  match sched with
  | [] => (st, pcs)
  | k :: rest =>
    match pcs[k]? with
    | none => runSched rest st pcs
    | some pc => runSched rest (stepTask st pc).1 (pcs.set k (stepTask st pc).2)

/-- C4 counterexample: two simultaneous first calls to `getBrowser` that
both pass the `browserInstance` check before either launch completes
launch **two** browser processes and return **different** references —
the claimed create-once guarantee fails under this interleaving. -/
theorem c4_counterexample :
    (runSched [0, 1, 0, 1] ⟨none, 0⟩ [.start, .start]).1.launches = 2 ∧
    (runSched [0, 1, 0, 1] ⟨none, 0⟩ [.start, .start]).2 =
      [.done 0, .done 1] := by
  exact ⟨rfl, rfl⟩

lemma stepTask_start_cached (st : BrowserState) (b : Nat)
    (h : st.browserInstance = some b) : stepTask st .start = (st, .done b) := by
  unfold stepTask
  rw [h]

lemma runSched_cached (b : Nat) :
    ∀ (sched : List Nat) (st : BrowserState) (pcs : List TaskPC),
      st.browserInstance = some b →
      (∀ pc ∈ pcs, pc = .start ∨ pc = .done b) →
      (runSched sched st pcs).1 = st ∧
      ∀ pc ∈ (runSched sched st pcs).2, pc = .start ∨ pc = .done b := by
  intro sched
  induction sched with
  | nil => intro st pcs h1 h2; exact ⟨rfl, h2⟩
  | cons k rest ih =>
    intro st pcs h1 h2
    rw [runSched]
    split
    · exact ih st pcs h1 h2
    · next pc hk =>
      have hmem : pc ∈ pcs := List.getElem?_mem hk
      rcases h2 pc hmem with hpc | hpc <;> subst hpc
      · rw [stepTask_start_cached st b h1]
        refine ih st _ h1 (fun q hq => ?_)
        rcases List.mem_or_eq_of_mem_set hq with hq | hq
        · exact h2 q hq
        · exact Or.inr hq
      · refine ih st _ h1 (fun q hq => ?_)
        rcases List.mem_or_eq_of_mem_set hq with hq | hq
        · exact h2 q hq
        · exact Or.inr hq

/-- C4 amended: the first completed call launches exactly one browser
and stores it, and from then on — for any interleaving of any number of
further calls — no additional launch occurs and every call that
completes receives the single stored reference.  The create-once
guarantee holds only once a first call has completed (non-overlapping
first calls); truly simultaneous first calls may each launch (see the
counterexample). -/
theorem c4_create_once_sequential :
    (runSched [0, 0] ⟨none, 0⟩ [.start] = (⟨some 0, 1⟩, [.done 0])) ∧
    ∀ (sched : List Nat) (pcs : List TaskPC),
      (∀ pc ∈ pcs, pc = .start ∨ pc = .done 0) →
      (runSched sched ⟨some 0, 1⟩ pcs).1 = ⟨some 0, 1⟩ ∧
      ∀ r, TaskPC.done r ∈ (runSched sched ⟨some 0, 1⟩ pcs).2 → r = 0 := by
  constructor
  · rfl
  · intro sched pcs hpcs
    obtain ⟨hst, hall⟩ := runSched_cached 0 sched ⟨some 0, 1⟩ pcs rfl hpcs
    refine ⟨hst, ?_⟩
    intro r hr
    rcases hall _ hr with hc | hc
    · exact absurd hc (by simp)
    · injection hc with hc

/-- Witness for the amended C4: a second call, arriving after the first
completed, is a pure read. -/
theorem c4_create_once_sequential_witness :
    (runSched [1, 1] ⟨some 0, 1⟩ [.done 0, .start]).1 = ⟨some 0, 1⟩ ∧
    ∀ r, TaskPC.done r ∈ (runSched [1, 1] ⟨some 0, 1⟩ [.done 0, .start]).2 →
      r = 0 :=
  c4_create_once_sequential.2 [1, 1] [.done 0, .start] (by decide)

end AmazonScraper
